import Mathlib

/-!
Shallow embedding of the VisionGuide realtime session engine
(src/types.ts): the session lifecycle state machine, the playback
scheduler, the transcript aggregation on turn boundaries, the memory
log, and the media capture pipelines.  Times and durations are modelled
as rationals (seconds on the output device clock), timestamps as
naturals (Date.now milliseconds), and binary payloads as strings.
-/

namespace VisionGuide

/-- SessionState enumeration, src/types.ts lines 8 to 13. -/
inductive SessionState where
  | DISCONNECTED
  | CONNECTING
  | CONNECTED
  | ERROR
deriving DecidableEq

/-- Author of a transcription entry: the literal union 'user' | 'ai'
(src/types.ts line 4). -/
inductive EntryType where
  | user
  | ai
deriving DecidableEq

/-- TranscriptionEntry, src/types.ts lines 2 to 6. -/
structure TranscriptionEntry where
  text : String
  type : EntryType
  timestamp : ℕ
deriving DecidableEq

/-- Whitespace test used by JavaScript String.prototype.trim, restricted
to the whitespace characters that can occur in transcript text. -/
def isWs (c : Char) : Bool :=
  (c == ' ') || (c == '\t') || (c == '\n') || (c == '\r')

/-- Drop leading and trailing whitespace from a character list. -/
def trimChars (l : List Char) : List Char :=
  ((l.dropWhile isWs).reverse.dropWhile isWs).reverse

/-- Model of JavaScript String.prototype.trim as used at lines 214 and
215 of src/types.ts. -/
def jsTrim (s : String) : String := ⟨trimChars s.data⟩

/-- One in-flight output buffer: an AudioBufferSourceNode created and
started at lines 197 to 203 of src/types.ts, recorded with its scheduled
start time and its duration in seconds. -/
structure PlaybackHandle where
  start : ℚ
  duration : ℚ
deriving DecidableEq

/-- The playback scheduler state owned by the onmessage handler:
`nextStartTime` is nextStartTimeRef.current (line 66), `sources` is
sourcesRef.current (line 65; a Set in the source, modelled as a list,
most recently added first). -/
structure SchedState where
  nextStartTime : ℚ
  sources : List PlaybackHandle
deriving DecidableEq

/-- Sequential effect of the audio payload branch of onmessage,
src/types.ts lines 192 to 204, run without interleaving: line 195 sets
nextStartTimeRef.current to max(nextStartTimeRef.current, ctx.currentTime),
line 201 starts the source at nextStartTimeRef.current, line 202 advances
the cursor by buffer.duration, line 203 adds the source to sourcesRef.
`now` is ctx.currentTime, `dur` is buffer.duration.  Returns the handle
created together with the new scheduler state. -/
def enqueueBuffer (now dur : ℚ) (st : SchedState) : PlaybackHandle × SchedState :=
  let c := max st.nextStartTime now
  let h : PlaybackHandle := ⟨c, dur⟩
  (h, ⟨c + dur, h :: st.sources⟩)

/-- The interrupted branch of onmessage, src/types.ts lines 230 to 234:
stop every source in sourcesRef (stop errors swallowed), clear the set,
reset nextStartTimeRef.current to 0.  Returns the list of handles that
were force-stopped together with the new scheduler state. -/
def interruptSched (st : SchedState) : List PlaybackHandle × SchedState :=
  (st.sources, ⟨0, []⟩)

/-- Full mutable state of the App component relevant to the session
engine: the React state hooks (lines 53 to 58) and refs (lines 60 to 70)
of src/types.ts, plus `storedDb` for the externally persisted copy under
the localStorage key vision_guide_db.  Booleans record whether the
corresponding resource is present: `sessionRef` (transport handle),
`intervalRef` (video capture timer), `processorConnected` (the
ScriptProcessorNode audio pipeline wired at lines 159 to 169),
`mediaTracksLive` (videoRef.current.srcObject holds live tracks). -/
structure Engine where
  sessionState : SessionState
  errorMsg : Option String
  transcriptions : List TranscriptionEntry
  dbEntries : List TranscriptionEntry
  storedDb : List TranscriptionEntry
  sessionRef : Bool
  intervalRef : Bool
  processorConnected : Bool
  mediaTracksLive : Bool
  sched : SchedState
  inputBuf : String
  outputBuf : String
deriving DecidableEq

/-- Initial component state (lines 53 to 70 of src/types.ts; the
localStorage preload of dbEntries at lines 73 to 75 is irrelevant to the
claims and modelled as the empty list). -/
def initEngine : Engine :=
  { sessionState := .DISCONNECTED, errorMsg := none, transcriptions := [],
    dbEntries := [], storedDb := [], sessionRef := false, intervalRef := false,
    processorConnected := false, mediaTracksLive := false,
    sched := ⟨0, []⟩, inputBuf := "", outputBuf := "" }

/-- saveToDb, src/types.ts lines 84 to 90: prepend the entry, keep the
first 50, and persist the updated list to localStorage. -/
def saveToDb (entry : TranscriptionEntry) (prev : List TranscriptionEntry) :
    List TranscriptionEntry :=
  (entry :: prev).take 50

/-- saveToDb acting on the engine state: updates dbEntries and writes the
same updated list to external storage (line 87 of src/types.ts). -/
def saveToDbE (entry : TranscriptionEntry) (s : Engine) : Engine :=
  let updated := saveToDb entry s.dbEntries
  { s with dbEntries := updated, storedDb := updated }

/-- stopSession, src/types.ts lines 92 to 111: close the transport
(errors swallowed), null the session ref, clear the video interval, stop
every queued source (errors swallowed) and clear the set, set state to
DISCONNECTED, stop the media tracks and null srcObject.  Note that it
does not touch nextStartTimeRef, errorMsg, transcriptions, dbEntries,
the transcription buffers, or the ScriptProcessorNode wiring. -/
def stopSession (s : Engine) : Engine :=
  { s with sessionRef := false, intervalRef := false,
           sched := { s.sched with sources := [] },
           sessionState := .DISCONNECTED, mediaTracksLive := false }

/-- Resource releases actually performed by one stopSession call, given
the guards at lines 93, 97, 101 and 107 of src/types.ts. -/
inductive ReleaseAction where
  | closeTransport
  | clearVideoTimer
  | stopSource
  | stopTracks
deriving DecidableEq

/-- The list of release actions a stopSession call performs from state
`s` (src/types.ts lines 92 to 111). -/
def stopReleases (s : Engine) : List ReleaseAction :=
  (if s.sessionRef then [ReleaseAction.closeTransport] else [])
    ++ (if s.intervalRef then [ReleaseAction.clearVideoTimer] else [])
    ++ (s.sched.sources.map fun _ => ReleaseAction.stopSource)
    ++ (if s.mediaTracksLive then [ReleaseAction.stopTracks] else [])

/-- The synchronous prefix of startSession, src/types.ts lines 113 to
115: clear the error and set state to CONNECTING.  There is no guard on
the current state. -/
def startSessionSync (s : Engine) : Engine :=
  { s with errorMsg := none, sessionState := .CONNECTING }

/-- Successful getUserMedia and video.play, src/types.ts lines 121 to
133: live tracks attached to the video element. -/
def acquireMedia (s : Engine) : Engine :=
  { s with mediaTracksLive := true }

/-- The catch block of startSession, src/types.ts lines 247 to 251: set
the error message and go directly to DISCONNECTED. -/
def startSessionFail (msg : String) (s : Engine) : Engine :=
  { s with errorMsg := some msg, sessionState := .DISCONNECTED }

/-- The onopen callback, src/types.ts lines 155 to 189: set state to
CONNECTED, wire the microphone stream through the ScriptProcessorNode
into the input AudioContext (lines 159 to 169), and install the periodic
video capture timer (lines 172 to 189). -/
def onopenStep (s : Engine) : Engine :=
  { s with sessionState := .CONNECTED, processorConnected := true,
           intervalRef := true }

/-- Line 245 of src/types.ts: sessionRef.current receives the awaited
session handle. -/
def setSessionRef (s : Engine) : Engine :=
  { s with sessionRef := true }

/-- The onerror callback, src/types.ts lines 236 to 240: set the fixed
error message, then stopSession. -/
def onerrorStep (s : Engine) : Engine :=
  stopSession { s with errorMsg := some "API limit or connection issue. Please try again." }

/-- The onclose callback, src/types.ts line 241: stopSession. -/
def oncloseStep (s : Engine) : Engine :=
  stopSession s

/-- Audio payload branch of onmessage acting on the engine (src/types.ts
lines 192 to 204), run sequentially. -/
def onAudioData (now dur : ℚ) (s : Engine) : Engine :=
  { s with sched := (enqueueBuffer now dur s.sched).2 }

/-- Input transcription fragment, src/types.ts lines 206 to 208. -/
def onInputFragment (t : String) (s : Engine) : Engine :=
  { s with inputBuf := s.inputBuf ++ t }

/-- Output transcription fragment, src/types.ts lines 209 to 211. -/
def onOutputFragment (t : String) (s : Engine) : Engine :=
  { s with outputBuf := s.outputBuf ++ t }

/-- The pure aggregation step of the turnComplete branch, src/types.ts
lines 213 to 227: trim both buffers; if either trimmed buffer is
non-empty, produce one entry per non-empty trimmed buffer (user first)
and clear both buffers; otherwise do nothing.  Returns the produced
entries and the two buffers after the step. -/
def flushBuffers (inp out : String) (ts : ℕ) :
    List TranscriptionEntry × String × String :=
  let userT := jsTrim inp
  let aiT := jsTrim out
  if userT ≠ "" ∨ aiT ≠ "" then
    ((if userT ≠ "" then [⟨userT, .user, ts⟩] else [])
       ++ (if aiT ≠ "" then [⟨aiT, .ai, ts⟩] else []), "", "")
  else ([], inp, out)

/-- Keep the last `n` elements of a list: Array.prototype.slice(-n) as
used at line 224 of src/types.ts. -/
def takeLast {α : Type} (n : ℕ) (l : List α) : List α :=
  l.drop (l.length - n)

/-- The turnComplete branch of onmessage, src/types.ts lines 213 to 228:
trim both transcription buffers; if either is non-empty, build the new
entries (user first, then ai), save the ai entry to the memory database
(line 222), append the new entries to the transcript keeping the last 15
(line 224), and reset both buffers. -/
def onTurnComplete (ts : ℕ) (s : Engine) : Engine :=
  let userT := jsTrim s.inputBuf
  let aiT := jsTrim s.outputBuf
  if userT ≠ "" ∨ aiT ≠ "" then
    let newEntries : List TranscriptionEntry :=
      (if userT ≠ "" then [⟨userT, .user, ts⟩] else [])
        ++ (if aiT ≠ "" then [⟨aiT, .ai, ts⟩] else [])
    let s1 := if aiT ≠ "" then saveToDbE ⟨aiT, .ai, ts⟩ s else s
    { s1 with transcriptions := takeLast 15 (s1.transcriptions ++ newEntries),
              inputBuf := "", outputBuf := "" }
  else s

/-- Interrupted branch of onmessage acting on the engine (src/types.ts
lines 230 to 234). -/
def onInterrupted (s : Engine) : Engine :=
  { s with sched := (interruptSched s.sched).2 }

/-- Every operation and transport callback that can touch the engine
state, for quantifying over arbitrary call sequences. -/
inductive Op where
  | startSync
  | startFail (msg : String)
  | acquire
  | onOpen
  | setRef
  | onError
  | onClose
  | stop
  | audioData (now dur : ℚ)
  | inputFrag (t : String)
  | outputFrag (t : String)
  | turnComplete (ts : ℕ)
  | interrupted
deriving DecidableEq

/-- Apply one operation or callback to the engine state. -/
def applyOp (o : Op) (s : Engine) : Engine :=
  match o with
  | .startSync => startSessionSync s
  | .startFail m => startSessionFail m s
  | .acquire => acquireMedia s
  | .onOpen => onopenStep s
  | .setRef => setSessionRef s
  | .onError => onerrorStep s
  | .onClose => oncloseStep s
  | .stop => stopSession s
  | .audioData now dur => onAudioData now dur s
  | .inputFrag t => onInputFragment t s
  | .outputFrag t => onOutputFragment t s
  | .turnComplete ts => onTurnComplete ts s
  | .interrupted => onInterrupted s

/-- Run a sequence of operations and callbacks from a state. -/
def runOps (l : List Op) (s : Engine) : Engine :=
  l.foldl (fun s o => applyOp o s) s

/-- The engine state after the normal connect flow: start from the
initial state, acquire media, transport opens, session handle stored. -/
def connectedEngine : Engine :=
  setSessionRef (onopenStep (acquireMedia (startSessionSync initEngine)))

/-- Allowed transition edges written following the spec's words: the
edges DISCONNECTED to CONNECTING to CONNECTED to DISCONNECTED on normal
stop, or CONNECTING or CONNECTED to ERROR to DISCONNECTED on failure,
and no others.  Stated for comparison with the transitions the code
performs. -/
def specAllowedEdge : SessionState → SessionState → Bool
  | .DISCONNECTED, .CONNECTING => true
  | .CONNECTING, .CONNECTED => true
  | .CONNECTED, .DISCONNECTED => true
  | .CONNECTING, .ERROR => true
  | .CONNECTED, .ERROR => true
  | .ERROR, .DISCONNECTED => true
  | _, _ => false

/-- Frame rate constant, src/types.ts line 29. -/
def FRAME_RATE : ℕ := 1

/-- JPEG quality constant, src/types.ts line 30. -/
def JPEG_QUALITY : ℚ := 1 / 2

/-- Timer period in milliseconds passed to setInterval at line 189 of
src/types.ts: 1000 / FRAME_RATE. -/
def intervalPeriodMs : ℕ := 1000 / FRAME_RATE

/-- An outbound media chunk as passed to sendRealtimeInput. -/
structure MediaChunk where
  data : String
  mimeType : String
deriving DecidableEq

/-- Body of the video capture timer callback, src/types.ts lines 172 to
189: if the video and canvas elements are present and the guard on the
session state passes, draw the frame, encode it as image/jpeg at
JPEG_QUALITY and submit it.  The `sessionState` the guard at line 173
reads is the React render closure capture from the render in which
startSession was created, not the live state at tick time; it is the
`capturedSessionState` argument here. -/
def videoTick (capturedSessionState : SessionState)
    (videoPresent canvasPresent : Bool) (frame : String) : Option MediaChunk :=
  if videoPresent = true ∧ canvasPresent = true
      ∧ capturedSessionState = SessionState.CONNECTED then
    some { data := frame, mimeType := "image/jpeg" }
  else
    none

/-- The session state value captured by the interval callback's closure:
startSession is not memoized and is invoked from the Connect button,
which is rendered only while sessionState is DISCONNECTED (line 414 of
src/types.ts), so the render that created the closure held DISCONNECTED.
Later setSessionState calls re-render with fresh bindings but do not
change this captured value. -/
def capturedAtStart : SessionState := SessionState.DISCONNECTED

/-- Inbound transport events relevant to playback scheduling, as handled
by onmessage (src/types.ts lines 191 to 234): an audio payload carrying
a decoded buffer of the given duration, or an interruption. -/
inductive InEvent where
  | audioEv (dur : ℚ)
  | interrupted
deriving DecidableEq

/-- Atomic slices of the async onmessage handler, indexed by the arrival
position of the event they belong to.  For an audio payload, `audioPre`
is line 195 (before the decodeAudioData await at line 196) and
`audioPost` is lines 197 to 203 (after that await); the handler can be
suspended between the two while other inbound events are handled.  For
an interruption, `intr` is lines 230 to 234, which contain no await and
run atomically. -/
inductive HandlerStep where
  | audioPre (i : ℕ)
  | audioPost (i : ℕ)
  | intr (i : ℕ)
deriving DecidableEq

/-- Scheduler state as seen by an interleaved execution: the cursor
nextStartTimeRef.current and the set of started sources, each recorded
with the arrival index of the event that created it and its scheduled
start time. -/
structure TraceState where
  cursor : ℚ
  playing : List (ℕ × ℚ)
deriving DecidableEq

/-- Semantics of one atomic handler slice.  `now` is ctx.currentTime,
`evs` the arrived events in arrival order. -/
def stepAct (now : ℚ) (evs : List InEvent) (st : TraceState) :
    HandlerStep → TraceState
  | .audioPre i =>
      match evs[i]? with
      | some (.audioEv _) => { st with cursor := max st.cursor now }
      | _ => st
  | .audioPost i =>
      match evs[i]? with
      | some (.audioEv d) => ⟨st.cursor + d, (i, st.cursor) :: st.playing⟩
      | _ => st
  | .intr i =>
      match evs[i]? with
      | some .interrupted => ⟨0, []⟩
      | _ => st

/-- Run a trace of handler slices from the initial scheduler state. -/
def runTrace (now : ℚ) (evs : List InEvent) (tr : List HandlerStep) : TraceState :=
  tr.foldl (stepAct now evs) ⟨0, []⟩

/-- The handler slices belonging to the event at index `i`. -/
def stepsOf (i : ℕ) : InEvent → List HandlerStep
  | .audioEv _ => [.audioPre i, .audioPost i]
  | .interrupted => [.intr i]

/-- All handler slices of the events from index `i` on, in order. -/
def stepsFrom (i : ℕ) : List InEvent → List HandlerStep
  | [] => []
  | e :: es => stepsOf i e ++ stepsFrom (i + 1) es

/-- All handler slices of an event list, fully sequential order: this is
the trace in which every handler runs to completion before the next
event is dispatched. -/
def allSteps (evs : List InEvent) : List HandlerStep :=
  stepsFrom 0 evs

/-- Whether a slice is the first slice of its handler. -/
def isStartB : HandlerStep → Bool
  | .audioPost _ => false
  | _ => true

/-- The arrival index a slice belongs to. -/
def startIndex : HandlerStep → ℕ
  | .audioPre i => i
  | .audioPost i => i
  | .intr i => i

/-- Position of the first occurrence of a slice in a trace. -/
def idxOfStep (a : HandlerStep) : List HandlerStep → ℕ
  | [] => 0
  | b :: bs => if a = b then 0 else idxOfStep a bs + 1

/-- Remove the first occurrence of a slice from a trace. -/
def removeStep (a : HandlerStep) : List HandlerStep → List HandlerStep
  | [] => []
  | b :: bs => if a = b then bs else b :: removeStep a bs

/-- Membership test for handler slices. -/
def containsStep (a : HandlerStep) : List HandlerStep → Bool
  | [] => false
  | b :: bs => if a = b then true else containsStep a bs

/-- Multiset equality of two traces. -/
def isPermOf : List HandlerStep → List HandlerStep → Bool
  | [], l => l.isEmpty
  | a :: rest, l => containsStep a l && isPermOf rest (removeStep a l)

/-- Non-decreasing check on a list of indices. -/
def chainLe : List ℕ → Bool
  | [] => true
  | [_] => true
  | a :: b :: rest => Nat.ble a b && chainLe (b :: rest)

/-- A trace is an admissible execution of the JavaScript event loop for
the arrived events: it consists of exactly the slices of the events,
each handler's own slices stay in program order (audioPre before
audioPost), and handlers are invoked in arrival order (the first slices
appear in increasing index order).  Between a handler's slices, slices
of other handlers may run: this is exactly the freedom the await at line
196 of src/types.ts gives the event loop. -/
def admissibleB (evs : List InEvent) (tr : List HandlerStep) : Bool :=
  isPermOf tr (allSteps evs)
    && (List.range evs.length).all (fun i =>
        match evs[i]? with
        | some (.audioEv _) =>
            Nat.blt (idxOfStep (.audioPre i) tr) (idxOfStep (.audioPost i) tr)
        | _ => true)
    && chainLe ((tr.filter isStartB).map startIndex)

/-- One fully sequential onmessage dispatch on the scheduler state: the
composition of the audio branch slices with no interleaving, or the
interrupted branch. -/
def seqEvent (now : ℚ) (st : SchedState) : InEvent → SchedState
  | .audioEv d => (enqueueBuffer now d st).2
  | .interrupted => (interruptSched st).2

/-- Fully sequential processing of a list of inbound events. -/
def seqRun (now : ℚ) (evs : List InEvent) (st : SchedState) : SchedState :=
  evs.foldl (seqEvent now) st

/-- Concrete event arrival used to exhibit the interleaving: an audio
payload of duration 5, then an interruption, then an audio payload of
duration 3. -/
def cexEvents : List InEvent := [.audioEv 5, .interrupted, .audioEv 3]

/-- An admissible interleaved trace for cexEvents: the first audio
handler is suspended at its decode await while the interruption and the
start of the third handler run, and only then do the two decodes
resolve. -/
def cexTrace : List HandlerStep :=
  [.audioPre 0, .intr 1, .audioPre 2, .audioPost 0, .audioPost 2]

end VisionGuide

namespace VisionGuide

/-- The turnComplete branch never changes the session state. -/
theorem onTurnComplete_sessionState (ts : ℕ) (s : Engine) :
    (onTurnComplete ts s).sessionState = s.sessionState := by
  simp only [onTurnComplete, saveToDbE]
  split
  · split <;> rfl
  · rfl

/-- Every operation either preserves the session state or moves it to
one of DISCONNECTED, CONNECTING, CONNECTED; no operation produces
ERROR. -/
theorem applyOp_sessionState_cases (o : Op) (s : Engine) :
    (applyOp o s).sessionState = s.sessionState
    ∨ (applyOp o s).sessionState = SessionState.DISCONNECTED
    ∨ (applyOp o s).sessionState = SessionState.CONNECTING
    ∨ (applyOp o s).sessionState = SessionState.CONNECTED := by
  cases o with
  | startSync => exact Or.inr (Or.inr (Or.inl rfl))
  | startFail m => exact Or.inr (Or.inl rfl)
  | acquire => exact Or.inl rfl
  | onOpen => exact Or.inr (Or.inr (Or.inr rfl))
  | setRef => exact Or.inl rfl
  | onError => exact Or.inr (Or.inl rfl)
  | onClose => exact Or.inr (Or.inl rfl)
  | stop => exact Or.inr (Or.inl rfl)
  | audioData now dur => exact Or.inl rfl
  | inputFrag t => exact Or.inl rfl
  | outputFrag t => exact Or.inl rfl
  | turnComplete ts => exact Or.inl (onTurnComplete_sessionState ts s)
  | interrupted => exact Or.inl rfl

/-- Running any sequence of operations from a state whose session state
is not ERROR never reaches ERROR. -/
theorem runOps_sessionState_cases (l : List Op) (s : Engine)
    (h : s.sessionState = SessionState.DISCONNECTED
        ∨ s.sessionState = SessionState.CONNECTING
        ∨ s.sessionState = SessionState.CONNECTED) :
    (runOps l s).sessionState = SessionState.DISCONNECTED
    ∨ (runOps l s).sessionState = SessionState.CONNECTING
    ∨ (runOps l s).sessionState = SessionState.CONNECTED := by
  induction l generalizing s with
  | nil => exact h
  | cons o rest ih =>
      refine ih (applyOp o s) ?_
      rcases applyOp_sessionState_cases o s with h1 | h1 | h1 | h1
      · rw [h1]; exact h
      · exact Or.inl h1
      · exact Or.inr (Or.inl h1)
      · exact Or.inr (Or.inr h1)

/-- Claim C1, counterexample: from the CONNECTED state reached by the
normal connect flow, calling start() is neither a no-op nor rejected:
its first synchronous statements clear the error and move the state to
CONNECTING (src/types.ts lines 113 to 115 have no guard), and the edge
CONNECTED to CONNECTING is not among the edges the claim allows. -/
theorem startSession_unguarded_counterexample :
    connectedEngine.sessionState = SessionState.CONNECTED
    ∧ (startSessionSync connectedEngine).sessionState = SessionState.CONNECTING
    ∧ (startSessionSync connectedEngine).errorMsg = none
    ∧ specAllowedEdge SessionState.CONNECTED SessionState.CONNECTING = false :=
  ⟨rfl, rfl, rfl, rfl⟩

/-- Claim C1, amended: start() is unguarded and moves any state to
CONNECTING; the open callback moves to CONNECTED; stop(), the error and
close callbacks, and a start() failure move directly to DISCONNECTED
(never through ERROR); inbound message handling never changes the
session state; and the ERROR state is unreachable under every sequence
of operations and transport callbacks. -/
theorem sessionState_machine_amended :
    (∀ l : List Op, (runOps l initEngine).sessionState = SessionState.DISCONNECTED
        ∨ (runOps l initEngine).sessionState = SessionState.CONNECTING
        ∨ (runOps l initEngine).sessionState = SessionState.CONNECTED)
    ∧ (∀ s : Engine, (startSessionSync s).sessionState = SessionState.CONNECTING)
    ∧ (∀ s : Engine, (onopenStep s).sessionState = SessionState.CONNECTED)
    ∧ (∀ (m : String) (s : Engine),
        (startSessionFail m s).sessionState = SessionState.DISCONNECTED)
    ∧ (∀ s : Engine, (stopSession s).sessionState = SessionState.DISCONNECTED
        ∧ (onerrorStep s).sessionState = SessionState.DISCONNECTED
        ∧ (oncloseStep s).sessionState = SessionState.DISCONNECTED)
    ∧ (∀ (s : Engine) (now dur : ℚ) (t : String) (ts : ℕ),
        (onAudioData now dur s).sessionState = s.sessionState
        ∧ (onInputFragment t s).sessionState = s.sessionState
        ∧ (onOutputFragment t s).sessionState = s.sessionState
        ∧ (onTurnComplete ts s).sessionState = s.sessionState
        ∧ (onInterrupted s).sessionState = s.sessionState) := by
  refine ⟨?_, fun s => rfl, fun s => rfl, fun m s => rfl,
    fun s => ⟨rfl, rfl, rfl⟩, ?_⟩
  · intro l
    exact runOps_sessionState_cases l initEngine (Or.inl rfl)
  · intro s now dur t ts
    exact ⟨rfl, rfl, rfl, onTurnComplete_sessionState ts s, rfl⟩

/-- Claim C2 (code bug): the video timer guard at line 173 of
src/types.ts compares the closure-captured session state with CONNECTED.
The capture is made in the render that created startSession, where the
state is DISCONNECTED, so the guard never passes and no frame is ever
submitted, on any tick, whatever the live session state is.  Had the
guard seen the live state, a tick while CONNECTED would submit exactly
one image/jpeg chunk; the timer period is 1000 ms (1 / FRAME_RATE
seconds) and the quality factor is the fixed JPEG_QUALITY = 0.5. -/
theorem videoTimer_stale_guard :
    (∀ (v c : Bool) (f : String), videoTick capturedAtStart v c f = none)
    ∧ videoTick SessionState.CONNECTED true true "frame"
        = some { data := "frame", mimeType := "image/jpeg" }
    ∧ intervalPeriodMs = 1000
    ∧ JPEG_QUALITY = 1 / 2 := by
  refine ⟨?_, rfl, rfl, rfl⟩
  intro v c f
  simp [videoTick, capturedAtStart]

/-- Claim C3, counterexample: the trace cexTrace is an admissible
event-loop execution of the arrivals [audio 5, interrupted, audio 3]
(handlers invoked in arrival order, each handler's slices in program
order), yet at its end the buffer of event 0 — delivered BEFORE the
interruption — is playing with start time 0, and the buffer of event 2 —
delivered AFTER the interruption — was scheduled at start time 5 (the
duration of the pre-interruption buffer) instead of at the reset cursor.
Fully sequential processing of the same arrivals (allSteps) ends with
only the post-interruption buffer, scheduled at 0.  The deviation is
possible because the audio branch of onmessage suspends at the
decodeAudioData await (line 196 of src/types.ts) between reading and
using the cursor. -/
theorem onmessage_interleaving_counterexample :
    admissibleB cexEvents cexTrace = true
    ∧ admissibleB cexEvents (allSteps cexEvents) = true
    ∧ (runTrace 0 cexEvents cexTrace).playing = [(2, 5), (0, 0)]
    ∧ (0, (0 : ℚ)) ∈ (runTrace 0 cexEvents cexTrace).playing
    ∧ (runTrace 0 cexEvents cexTrace).cursor = 8
    ∧ (runTrace 0 cexEvents (allSteps cexEvents)).playing = [(2, 0)]
    ∧ (runTrace 0 cexEvents (allSteps cexEvents)).cursor = 3 := by
  refine ⟨by decide, by decide, ?_, ?_, ?_, ?_, ?_⟩ <;>
    norm_num [runTrace, cexEvents, cexTrace, allSteps, stepsFrom, stepsOf,
      stepAct, List.foldl]

/-- Claim C3, amended: when every onmessage invocation runs to
completion before the next inbound event is dispatched, an interruption
is a barrier: the scheduler state after processing any arrivals of the
form evs ++ [interrupted] ++ evsAfter equals the state obtained by
processing evsAfter alone from the reset state (cursor 0, no sources),
so no audio buffer delivered after an interruption is scheduled using
any pre-interruption state. -/
theorem onmessage_sequential_interrupt_order (now : ℚ)
    (evs evsAfter : List InEvent) (st : SchedState) :
    seqRun now (evs ++ InEvent.interrupted :: evsAfter) st
      = seqRun now evsAfter ⟨0, []⟩ := by
  rw [seqRun, List.foldl_append, List.foldl_cons]
  rfl

end VisionGuide

namespace VisionGuide

/-- Claim C4 (confirmed): every enqueue schedules its buffer at
max(cursor, device clock now) and advances the cursor to start plus the
buffer duration, pushing the handle onto the in-flight set; hence a
burst of three buffers of durations d1, d2, d3 enqueued while the device
clock has not advanced past the cursor is scheduled gaplessly at t0,
t0 + d1, t0 + d1 + d2. -/
theorem scheduler_gapless :
    (∀ (now dur : ℚ) (st : SchedState),
        (enqueueBuffer now dur st).1.start = max st.nextStartTime now
        ∧ (enqueueBuffer now dur st).2.nextStartTime
            = (enqueueBuffer now dur st).1.start + dur
        ∧ (enqueueBuffer now dur st).1.duration = dur
        ∧ (enqueueBuffer now dur st).2.sources
            = (enqueueBuffer now dur st).1 :: st.sources)
    ∧ (∀ (t0 d1 d2 d3 : ℚ) (st : SchedState),
        st.nextStartTime ≤ t0 → 0 ≤ d1 → 0 ≤ d2 →
        (enqueueBuffer t0 d1 st).1.start = t0
        ∧ (enqueueBuffer t0 d2 (enqueueBuffer t0 d1 st).2).1.start = t0 + d1
        ∧ (enqueueBuffer t0 d3
              (enqueueBuffer t0 d2 (enqueueBuffer t0 d1 st).2).2).1.start
            = t0 + d1 + d2) := by
  constructor
  · intro now dur st
    exact ⟨rfl, rfl, rfl, rfl⟩
  · intro t0 d1 d2 d3 st h0 h1 h2
    have e1 : max st.nextStartTime t0 = t0 := max_eq_right h0
    have e2 : max (t0 + d1) t0 = t0 + d1 := max_eq_left (by linarith)
    have e3 : max (t0 + d1 + d2) t0 = t0 + d1 + d2 := max_eq_left (by linarith)
    refine ⟨?_, ?_, ?_⟩ <;> simp [enqueueBuffer, e1, e2, e3]

/-- Witness for scheduler_gapless at the spec's own scenario: buffers of
0.5 s and 0.3 s enqueued at device time 2.0 with cursor 0 start at 2.0
and 2.5, and the cursor ends at 2.8. -/
theorem scheduler_gapless_witness :
    (enqueueBuffer 2 (1 / 2) ⟨0, []⟩).1.start = 2
    ∧ (enqueueBuffer 2 (3 / 10) (enqueueBuffer 2 (1 / 2) ⟨0, []⟩).2).1.start
        = 2 + 1 / 2
    ∧ (enqueueBuffer 2 (3 / 10) (enqueueBuffer 2 (1 / 2) ⟨0, []⟩).2).2.nextStartTime
        = 14 / 5 := by
  have h := scheduler_gapless.2 2 (1 / 2) (3 / 10) 0 ⟨0, []⟩
    (by norm_num) (by norm_num) (by norm_num)
  have g := (scheduler_gapless.1 2 (3 / 10) (enqueueBuffer 2 (1 / 2) ⟨0, []⟩).2).2.1
  refine ⟨h.1, h.2.1, ?_⟩
  rw [g, h.2.1]
  norm_num

/-- Claim C5 (confirmed): handling an interrupted event force-stops
every in-flight handle (however many there are), empties the in-flight
set, and resets the cursor to 0; the next buffer enqueued afterwards is
scheduled to start at the device clock's current time. -/
theorem interrupt_resets (st : SchedState) :
    (interruptSched st).2.nextStartTime = 0
    ∧ (interruptSched st).2.sources = []
    ∧ (interruptSched st).1 = st.sources
    ∧ ∀ now dur : ℚ, 0 ≤ now →
        (enqueueBuffer now dur (interruptSched st).2).1.start = now := by
  refine ⟨rfl, rfl, rfl, ?_⟩
  intro now dur h
  simp [interruptSched, enqueueBuffer, max_eq_right h]

/-- Witness for interrupt_resets: two handles in flight, all stopped,
cursor reset, next enqueue at device time 4 starts at 4. -/
theorem interrupt_resets_witness :
    (interruptSched ⟨7, [⟨0, 1⟩, ⟨3, 2⟩]⟩).2.nextStartTime = 0
    ∧ (interruptSched ⟨7, [⟨0, 1⟩, ⟨3, 2⟩]⟩).2.sources = []
    ∧ (interruptSched ⟨7, [⟨0, 1⟩, ⟨3, 2⟩]⟩).1 = [⟨0, 1⟩, ⟨3, 2⟩]
    ∧ (enqueueBuffer 4 2 (interruptSched ⟨7, [⟨0, 1⟩, ⟨3, 2⟩]⟩).2).1.start = 4 := by
  have h := interrupt_resets ⟨7, [⟨0, 1⟩, ⟨3, 2⟩]⟩
  exact ⟨h.1, h.2.1, h.2.2.1, h.2.2.2 4 2 (by norm_num)⟩

/-- Claim C6, counterexample: with an input buffer holding only
whitespace and an empty output buffer, the turn-complete flush produces
zero entries but does NOT reset the buffers to empty — the guard at line
216 of src/types.ts skips the whole branch, so the whitespace residue
stays in the buffer, contradicting the claim that every flush resets
both buffers to empty. -/
theorem flush_counterexample :
    (flushBuffers " " "" 0).1 = []
    ∧ (flushBuffers " " "" 0).2.1 = " "
    ∧ ((flushBuffers " " "" 0).2.1 == "") = false := by decide

/-- Claim C6, amended: the flush trims both buffers and produces exactly
one entry per non-empty trimmed buffer, user first; whenever at least
one trimmed buffer is non-empty both buffers are reset to empty; when
both trim to empty it produces zero entries and leaves the buffers
unchanged (such residue is pure whitespace, removed by the trim of any
later flush, so no later entry is affected). -/
theorem flush_amended :
    (∀ (inp out : String) (ts : ℕ),
        (flushBuffers inp out ts).1
          = (if jsTrim inp = "" then []
              else [⟨jsTrim inp, EntryType.user, ts⟩])
            ++ (if jsTrim out = "" then []
              else [⟨jsTrim out, EntryType.ai, ts⟩]))
    ∧ (∀ (inp out : String) (ts : ℕ), jsTrim inp ≠ "" ∨ jsTrim out ≠ "" →
        (flushBuffers inp out ts).2.1 = "" ∧ (flushBuffers inp out ts).2.2 = "")
    ∧ (∀ (inp out : String) (ts : ℕ), jsTrim inp = "" → jsTrim out = "" →
        flushBuffers inp out ts = ([], inp, out)) := by
  refine ⟨?_, ?_, ?_⟩
  · intro inp out ts
    by_cases h1 : jsTrim inp = "" <;> by_cases h2 : jsTrim out = "" <;>
      simp [flushBuffers, h1, h2]
  · intro inp out ts h
    simp only [flushBuffers]
    rw [if_pos h]
    exact ⟨rfl, rfl⟩
  · intro inp out ts h1 h2
    simp [flushBuffers, h1, h2]

/-- Witness for flush_amended at the spec's scenario: fragments
"Hello " then "world" for the user role flush to exactly one user entry
with text "Hello world" and both buffers reset; two empty buffers flush
to zero entries. -/
theorem flush_amended_witness :
    (flushBuffers ("Hello " ++ "world") "" 7).1
      = [⟨"Hello world", EntryType.user, 7⟩]
    ∧ (flushBuffers ("Hello " ++ "world") "" 7).2.1 = ""
    ∧ (flushBuffers ("Hello " ++ "world") "" 7).2.2 = ""
    ∧ flushBuffers "" "" 3 = ([], "", "") := by
  have h1 := flush_amended.1 ("Hello " ++ "world") "" 7
  have h2 := flush_amended.2.1 ("Hello " ++ "world") "" 7 (Or.inl (by decide))
  have h3 := flush_amended.2.2 "" "" 3 (by decide) (by decide)
  refine ⟨?_, h2.1, h2.2, h3⟩
  rw [h1]
  decide

/-- Claim C7 (confirmed): the memory database receives only ai-authored
entries (every operation either leaves it unchanged or prepends an ai
entry through saveToDb, persisting the updated list), it is newest-first
(the new entry becomes the head), it never exceeds 50 entries, and
appending beyond 50 evicts exactly the entries at index 49 and beyond
(the oldest); the transcript log keeps at most the most recent 15
entries, evicting from the front (the oldest first). -/
theorem memory_and_transcript_logs :
    (∀ (e : TranscriptionEntry) (prev : List TranscriptionEntry),
        (saveToDb e prev).length ≤ 50
        ∧ (saveToDb e prev).head? = some e
        ∧ saveToDb e prev = e :: prev.take 49)
    ∧ (∀ (e : TranscriptionEntry) (s : Engine),
        (saveToDbE e s).storedDb = (saveToDbE e s).dbEntries
        ∧ (saveToDbE e s).dbEntries = saveToDb e s.dbEntries)
    ∧ (∀ (o : Op) (s : Engine),
        (applyOp o s).dbEntries = s.dbEntries
        ∨ ∃ (t : String) (ts : ℕ),
            (applyOp o s).dbEntries = saveToDb ⟨t, EntryType.ai, ts⟩ s.dbEntries
            ∧ (applyOp o s).storedDb = (applyOp o s).dbEntries)
    ∧ (∀ prev news : List TranscriptionEntry,
        (takeLast 15 (prev ++ news)).length = min (prev.length + news.length) 15
        ∧ (prev ++ news).take ((prev ++ news).length - 15)
            ++ takeLast 15 (prev ++ news) = prev ++ news) := by
  refine ⟨?_, ?_, ?_, ?_⟩
  · intro e prev
    refine ⟨?_, rfl, rfl⟩
    simp [saveToDb, List.length_take_le 50 (e :: prev)]
  · intro e s
    exact ⟨rfl, rfl⟩
  · intro o s
    cases o with
    | turnComplete ts =>
        simp only [applyOp, onTurnComplete, saveToDbE]
        split
        · split
          · exact Or.inr ⟨jsTrim s.outputBuf, ts, rfl, rfl⟩
          · exact Or.inl rfl
        · exact Or.inl rfl
    | startSync => exact Or.inl rfl
    | startFail m => exact Or.inl rfl
    | acquire => exact Or.inl rfl
    | onOpen => exact Or.inl rfl
    | setRef => exact Or.inl rfl
    | onError => exact Or.inl rfl
    | onClose => exact Or.inl rfl
    | stop => exact Or.inl rfl
    | audioData now dur => exact Or.inl rfl
    | inputFrag t => exact Or.inl rfl
    | outputFrag t => exact Or.inl rfl
    | interrupted => exact Or.inl rfl
  · intro prev news
    constructor
    · simp only [takeLast, List.length_drop, List.length_append]
      omega
    · simp only [takeLast]
      exact List.take_append_drop _ _

/-- Claim C8, counterexample: after the normal connect flow both
pipelines are up; stopSession cancels the video timer and settles to
DISCONNECTED, but the ScriptProcessorNode audio pipeline wired at lines
159 to 169 of src/types.ts is never disconnected by stopSession (lines
92 to 111 contain no processor or audio-context teardown), so the audio
pipeline survives stop(), contradicting the claim that both pipelines
are torn down atomically with the connection. -/
theorem stop_leaves_audio_node_counterexample :
    connectedEngine.sessionState = SessionState.CONNECTED
    ∧ connectedEngine.processorConnected = true
    ∧ connectedEngine.intervalRef = true
    ∧ (stopSession connectedEngine).sessionState = SessionState.DISCONNECTED
    ∧ (stopSession connectedEngine).intervalRef = false
    ∧ (stopSession connectedEngine).processorConnected = true :=
  ⟨rfl, rfl, rfl, rfl, rfl, rfl⟩

/-- Claim C8, amended: the open callback activates exactly one audio
pipeline and one video capture timer; stop() closes the transport,
cancels the video timer, stops all in-flight playback and stops the
media tracks, but leaves the ScriptProcessorNode audio pipeline
connected — its state passes through stop() unchanged — so only the
video pipeline is torn down atomically with the connection. -/
theorem stop_teardown_amended (s : Engine) :
    (stopSession s).sessionRef = false
    ∧ (stopSession s).intervalRef = false
    ∧ (stopSession s).sched.sources = []
    ∧ (stopSession s).mediaTracksLive = false
    ∧ (stopSession s).processorConnected = s.processorConnected
    ∧ (onopenStep s).processorConnected = true
    ∧ (onopenStep s).intervalRef = true :=
  ⟨rfl, rfl, rfl, rfl, rfl, rfl, rfl⟩

/-- Claim C9 (confirmed): stop() is idempotent — a second call produces
the identical state and performs zero release actions (each release is
guarded, so there are no duplicate-release errors) — it settles every
state to DISCONNECTED, and every error path (transport error callback,
close callback, start() failure) also ends in DISCONNECTED, never in
CONNECTING or CONNECTED. -/
theorem stop_idempotent_settles :
    (∀ s : Engine, stopSession (stopSession s) = stopSession s)
    ∧ (∀ s : Engine, (stopSession s).sessionState = SessionState.DISCONNECTED)
    ∧ (∀ s : Engine, stopReleases (stopSession s) = [])
    ∧ (∀ s : Engine, (onerrorStep s).sessionState = SessionState.DISCONNECTED)
    ∧ (∀ s : Engine, (oncloseStep s).sessionState = SessionState.DISCONNECTED)
    ∧ (∀ (m : String) (s : Engine),
        (startSessionFail m s).sessionState = SessionState.DISCONNECTED) :=
  ⟨fun _ => rfl, fun _ => rfl, fun _ => rfl, fun _ => rfl, fun _ => rfl,
    fun _ _ => rfl⟩

/-- Claim C10 (confirmed): neither stop() nor a subsequent start()
touches the transcript log or the memory database; among the observable
outputs, start() resets exactly the error message (to none) and the
session state (to CONNECTING), leaving transcripts, database, scheduler
state and transcription buffers as they were. -/
theorem transcript_log_persists (s : Engine) :
    (stopSession s).transcriptions = s.transcriptions
    ∧ (startSessionSync (stopSession s)).transcriptions = s.transcriptions
    ∧ (startSessionSync s).transcriptions = s.transcriptions
    ∧ (stopSession s).dbEntries = s.dbEntries
    ∧ (stopSession s).storedDb = s.storedDb
    ∧ (startSessionSync s).dbEntries = s.dbEntries
    ∧ (startSessionSync s).storedDb = s.storedDb
    ∧ (startSessionSync s).errorMsg = none
    ∧ (startSessionSync s).sessionState = SessionState.CONNECTING
    ∧ (startSessionSync s).sched = s.sched
    ∧ (startSessionSync s).inputBuf = s.inputBuf
    ∧ (startSessionSync s).outputBuf = s.outputBuf :=
  ⟨rfl, rfl, rfl, rfl, rfl, rfl, rfl, rfl, rfl, rfl, rfl, rfl⟩

end VisionGuide
